import Mathlib

/-!
Verification of `verify_mobile.py`, a Playwright script that captures three
mobile-layout screenshots of a local web app and reports one computed style.

The script is embedded as a trace semantics.  An `Env` is an oracle giving
the outcome (success or raised exception, exceptions carried as their message
string) of every fallible library call the script makes.  Running the script
against an `Env` produces the list of completed observable effects (`Event`s,
in order) together with the final `Outcome` (normal return of `verify_mobile`,
or an exception propagating out of it).  Control flow is translated
line-by-line from the source:

  * device lookup, browser launch, context creation and page creation happen
    before the `try`, so an exception there propagates (no handler, and the
    `finally: browser.close()` is not yet in scope);
  * the `try` body is the three navigate/sleep/screenshot/print steps with the
    font-size inspection between the settings capture and the results step;
  * `except Exception as e: print(f"Error: {e}")` then `finally:
    browser.close()`.

An `Event` records a *completed* effect: a call that raises contributes no
event of its own.  `time.sleep(2)` and `print` never raise.
`page.locator(...).first` builds a lazy locator and performs no browser work,
so it always completes; `is_visible()` returns `False` (rather than raising)
when no element matches the selector, so the "element absent" and "element
hidden" cases are both `Except.ok false` outcomes of the visibility call.
-/

namespace VerifyMobile

def homeUrl : String := "http://localhost:5173/"

def settingsUrl : String := "http://localhost:5173/settings"

def resultsUrl : String := "http://localhost:5173/results"

def homeShot : String := "verification_home.png"

def settingsShot : String := "verification_settings.png"

def resultsShot : String := "verification_results.png"

def deviceName : String := "iPhone 12"

def numberInputSelector : String := "input[type=\"number\"]"

def homeMsg : String := "Home screenshot taken."

def settingsMsg : String := "Settings screenshot taken."

def resultsMsg : String := "Results screenshot taken."

/-- One completed observable effect of the script.  `screenshot path fullPage`
records a finished `page.screenshot` call: the source passes only `path=...`,
so the library's `full_page` default (`False`, viewport-only) applies and is
recorded explicitly in the event. -/
inductive Event where
  | getDevice (name : String)
  | launchBrowser (headless : Bool)
  | newContext (device : String)
  | newPage
  | goto (url : String)
  | sleep (seconds : Nat)
  | screenshot (path : String) (fullPage : Bool)
  | output (msg : String)
  | locate (selector : String)
  | visibilityCheck
  | evalFontSize
  | close
deriving DecidableEq

/-- Oracle for the outcome of each fallible library call.  `Except.error e`
means the call raises an exception whose string form is `e`. -/
structure Env where
  devices : Except String Unit
  launch : Except String Unit
  newContext : Except String Unit
  newPage : Except String Unit
  goto : String → Except String Unit
  screenshot : String → Except String Unit
  isVisible : Except String Bool
  evaluate : Except String String

/-- Final fate of one invocation of `verify_mobile`. -/
inductive Outcome where
  | normal
  | uncaught (msg : String)
deriving DecidableEq

/-- A single fallible library call: on success it contributes its event, on a
raised exception it contributes nothing and aborts the sequence. -/
def call (ev : Event) : Except String Unit → List Event × Except String Unit
  | Except.error e => ([], Except.error e)
  | Except.ok _ => ([ev], Except.ok ())

/-- Sequential composition of two effectful fragments: Python statement
sequencing, where an exception in the first fragment skips the second. -/
def seqRes : List Event × Except String Unit → List Event × Except String Unit →
    List Event × Except String Unit
  | (t, Except.error e), _ => (t, Except.error e)
  | (t, Except.ok _), (u, r) => (t ++ u, r)

/-- Lines 7-10 of the source: `p.devices['iPhone 12']`,
`p.chromium.launch(headless=True)`, `browser.new_context(**iphone_12)`,
`context.new_page()`.  These run before the `try` block. -/
def setup (env : Env) : List Event × Except String Unit :=
  seqRes (call (Event.getDevice deviceName) env.devices)
    (seqRes (call (Event.launchBrowser true) env.launch)
      (seqRes (call (Event.newContext deviceName) env.newContext)
        (call Event.newPage env.newPage)))

/-- The trace of a fully successful setup. -/
def setupTrace : List Event :=
  [Event.getDevice deviceName, Event.launchBrowser true,
   Event.newContext deviceName, Event.newPage]

/-- One navigate / sleep / screenshot / print step (lines 14-17, 20-23 and
32-35 of the source).  `time.sleep(2)` and `print` cannot raise; the
screenshot call omits `full_page`, hence the `false` flag. -/
def captureStep (env : Env) (url shot msg : String) :
    List Event × Except String Unit :=
  seqRes (call (Event.goto url) (env.goto url))
    (seqRes ([Event.sleep 2], Except.ok ())
      (seqRes (call (Event.screenshot shot false) (env.screenshot shot))
        ([Event.output msg], Except.ok ())))

/-- Lines 26-29 of the source: build the locator (lazy, never raises), call
`is_visible()`, and if it returns true evaluate the computed font size and
print it.  Element absent and element hidden both surface as
`env.isVisible = .ok false`. -/
def inspectStep (env : Env) : List Event × Except String Unit :=
  match env.isVisible with
  | Except.error e => ([Event.locate numberInputSelector], Except.error e)
  | Except.ok false =>
      ([Event.locate numberInputSelector, Event.visibilityCheck], Except.ok ())
  | Except.ok true =>
      match env.evaluate with
      | Except.error e =>
          ([Event.locate numberInputSelector, Event.visibilityCheck],
           Except.error e)
      | Except.ok fs =>
          ([Event.locate numberInputSelector, Event.visibilityCheck,
            Event.evalFontSize, Event.output ("Input font size: " ++ fs)],
           Except.ok ())

def step1 (env : Env) : List Event × Except String Unit :=
  captureStep env homeUrl homeShot homeMsg

def step2 (env : Env) : List Event × Except String Unit :=
  captureStep env settingsUrl settingsShot settingsMsg

def step3 (env : Env) : List Event × Except String Unit :=
  captureStep env resultsUrl resultsShot resultsMsg

/-- The `try` body, lines 12-35: home step, settings step, font-size
inspection, results step, in order, aborted by the first exception. -/
def tryBody (env : Env) : List Event × Except String Unit :=
  seqRes (step1 env)
    (seqRes (step2 env)
      (seqRes (inspectStep env) (step3 env)))

/-- Lines 37-40: `except Exception as e: print(f"Error: {e}")` followed by
`finally: browser.close()`.  Either way the function returns normally. -/
def withTeardown : List Event × Except String Unit → List Event × Outcome
  | (t, Except.ok _) => (t ++ [Event.close], Outcome.normal)
  | (t, Except.error e) =>
      (t ++ [Event.output ("Error: " ++ e), Event.close], Outcome.normal)

/-- The whole of `verify_mobile` (lines 4-40).  A setup exception propagates
uncaught; once setup succeeds the guarded body runs with its handler and
guaranteed close. -/
def verify_mobile (env : Env) : List Event × Outcome :=
  match setup env with
  | (t, Except.error e) => (t, Outcome.uncaught e)
  | (t, Except.ok _) =>
      (t ++ (withTeardown (tryBody env)).1, (withTeardown (tryBody env)).2)

/-- Everything the run printed to standard output, in order. -/
def outputs : List Event → List String
  | [] => []
  | Event.output m :: rest => m :: outputs rest
  | _ :: rest => outputs rest

/-- The screenshot files written by the run, in order of writing. -/
def filesWritten : List Event → List String
  | [] => []
  | Event.screenshot p _ :: rest => p :: filesWritten rest
  | _ :: rest => filesWritten rest

/-- Replay the file-system effect of a trace on a store mapping file names to
contents (contents abstracted as the id `runId` of the run that wrote the
file).  A screenshot event overwrites any previous content of its path; no
event ever removes a file. -/
def fsAfter (runId : Nat) : List Event → (String → Option Nat) →
    String → Option Nat
  | [], fs => fs
  | Event.screenshot p _ :: rest, fs =>
      fsAfter runId rest (fun q => if q = p then some runId else fs q)
  | _ :: rest, fs => fsAfter runId rest fs

/-- File store after one invocation of the script, tagged `runId`. -/
def runOnFs (env : Env) (runId : Nat) (fs : String → Option Nat) :
    String → Option Nat :=
  fsAfter runId (verify_mobile env).1 fs

/-- Process exit status of `python verify_mobile.py` (lines 42-43): 0 on a
normal return, 1 when an exception escapes `verify_mobile`. -/
def mainExit (env : Env) : Nat :=
  match (verify_mobile env).2 with
  | Outcome.normal => 0
  | Outcome.uncaught _ => 1

/-- An environment where every library call succeeds and the numeric input
is absent or hidden. -/
def envOk : Env :=
  { devices := Except.ok (), launch := Except.ok (),
    newContext := Except.ok (), newPage := Except.ok (),
    goto := fun _ => Except.ok (), screenshot := fun _ => Except.ok (),
    isVisible := Except.ok false, evaluate := Except.ok "16px" }

/-- Like `envOk` but the numeric input is visible. -/
def envVis : Env :=
  { envOk with isVisible := Except.ok true }

/-- Navigation to the settings route raises (e.g., dev server not running). -/
def envGotoFail : Env :=
  { envOk with
    goto := fun u =>
      if u = settingsUrl then Except.error "net::ERR_CONNECTION_REFUSED"
      else Except.ok () }

/-- The settings screenshot call raises. -/
def envShotFail : Env :=
  { envOk with
    screenshot := fun p =>
      if p = settingsShot then Except.error "disk full" else Except.ok () }

/-- Browser launch raises, before the `try` block is entered. -/
def envLaunchFail : Env :=
  { envOk with launch := Except.error "browser executable not found" }

/-- The visibility probe itself raises (e.g., page crashed). -/
def envVisFail : Env :=
  { envOk with isVisible := Except.error "page closed" }

/-! ### Basic equations for the combinators -/

theorem seqRes_error {t : List Event} {e : String}
    (b : List Event × Except String Unit) :
    seqRes (t, Except.error e) b = (t, Except.error e) := by
  obtain ⟨u, r⟩ := b
  rfl

theorem seqRes_err {a : List Event × Except String Unit}
    (b : List Event × Except String Unit) {e : String}
    (h : a.2 = Except.error e) : seqRes a b = (a.1, Except.error e) := by
  obtain ⟨t, r⟩ := a
  simp only at h
  subst h
  exact seqRes_error b

theorem seqRes_okl {a : List Event × Except String Unit}
    (b : List Event × Except String Unit)
    (h : a.2 = Except.ok ()) : seqRes a b = (a.1 ++ b.1, b.2) := by
  obtain ⟨t, r⟩ := a
  obtain ⟨u, s⟩ := b
  simp only at h
  subst h
  rfl

theorem seqRes_ok_iff {a b : List Event × Except String Unit} :
    (seqRes a b).2 = Except.ok () ↔
      a.2 = Except.ok () ∧ b.2 = Except.ok () := by
  obtain ⟨t, r⟩ := a
  obtain ⟨u, s⟩ := b
  cases r with
  | error e => simp [seqRes]
  | ok v => cases v; simp [seqRes]

theorem mem_seqRes {x : Event} {a b : List Event × Except String Unit}
    (h : x ∈ (seqRes a b).1) : x ∈ a.1 ∨ x ∈ b.1 := by
  obtain ⟨t, r⟩ := a
  obtain ⟨u, s⟩ := b
  cases r with
  | error e => exact Or.inl h
  | ok v =>
      cases v
      rcases List.mem_append.mp h with h1 | h2
      · exact Or.inl h1
      · exact Or.inr h2

theorem call_ok {ev : Event} {r : Except String Unit}
    (h : r = Except.ok ()) : call ev r = ([ev], Except.ok ()) := by
  subst h; rfl

theorem call_err {ev : Event} {r : Except String Unit} {e : String}
    (h : r = Except.error e) : call ev r = ([], Except.error e) := by
  subst h; rfl

theorem withTeardown_ok {t : List Event} :
    withTeardown (t, Except.ok ()) = (t ++ [Event.close], Outcome.normal) :=
  rfl

theorem withTeardown_err {t : List Event} {e : String} :
    withTeardown (t, Except.error e) =
      (t ++ [Event.output ("Error: " ++ e), Event.close], Outcome.normal) :=
  rfl

/-! ### Shapes of the individual phases -/

/-- A successful setup performs exactly the four acquisition effects. -/
theorem setup_ok {env : Env} (h : (setup env).2 = Except.ok ()) :
    setup env = (setupTrace, Except.ok ()) := by
  cases hd : env.devices <;> cases hl : env.launch <;>
    cases hc : env.newContext <;> cases hp : env.newPage <;>
    simp [setup, call, seqRes, setupTrace, hd, hl, hc, hp] at h ⊢

/-- The setup trace, successful or aborted, is always an initial segment of
the four acquisition effects. -/
theorem setup_trace_cases (env : Env) :
    (setup env).1 = [] ∨
    (setup env).1 = [Event.getDevice deviceName] ∨
    (setup env).1 = [Event.getDevice deviceName, Event.launchBrowser true] ∨
    (setup env).1 = [Event.getDevice deviceName, Event.launchBrowser true,
      Event.newContext deviceName] ∨
    (setup env).1 = setupTrace := by
  cases hd : env.devices <;> cases hl : env.launch <;>
    cases hc : env.newContext <;> cases hp : env.newPage <;>
    simp [setup, call, seqRes, setupTrace, hd, hl, hc, hp]

/-- Every possible trace of one capture step. -/
theorem capture_trace_cases (env : Env) (u s m : String) :
    (captureStep env u s m).1 = [] ∨
    (captureStep env u s m).1 = [Event.goto u, Event.sleep 2] ∨
    (captureStep env u s m).1 =
      [Event.goto u, Event.sleep 2, Event.screenshot s false,
       Event.output m] := by
  cases hg : env.goto u <;> cases hs : env.screenshot s <;>
    simp [captureStep, call, seqRes, hg, hs]

/-- A successful capture step performs exactly navigate, sleep, screenshot
(viewport, not full page), confirmation print — in that order. -/
theorem capture_ok {env : Env} {u s m : String}
    (h : (captureStep env u s m).2 = Except.ok ()) :
    captureStep env u s m =
      ([Event.goto u, Event.sleep 2, Event.screenshot s false,
        Event.output m], Except.ok ()) := by
  cases hg : env.goto u <;> cases hs : env.screenshot s <;>
    simp [captureStep, call, seqRes, hg, hs] at h ⊢

/-- A failed capture step has written no screenshot and printed nothing. -/
theorem capture_err {env : Env} {u s m : String} {e : String}
    (h : (captureStep env u s m).2 = Except.error e) :
    (captureStep env u s m).1 = [] ∨
    (captureStep env u s m).1 = [Event.goto u, Event.sleep 2] := by
  cases hg : env.goto u <;> cases hs : env.screenshot s <;>
    simp [captureStep, call, seqRes, hg, hs] at h ⊢

/-- Every possible trace of the inspection step. -/
theorem inspect_trace_cases (env : Env) :
    (inspectStep env).1 = [Event.locate numberInputSelector] ∨
    (inspectStep env).1 =
      [Event.locate numberInputSelector, Event.visibilityCheck] ∨
    ∃ fs, (inspectStep env).1 =
      [Event.locate numberInputSelector, Event.visibilityCheck,
       Event.evalFontSize, Event.output ("Input font size: " ++ fs)] := by
  cases hv : env.isVisible with
  | error e => left; simp [inspectStep, hv]
  | ok b =>
    cases b with
    | false => right; left; simp [inspectStep, hv]
    | true =>
      cases he : env.evaluate with
      | error e => right; left; simp [inspectStep, hv, he]
      | ok fs => right; right; exact ⟨fs, by simp [inspectStep, hv, he]⟩

/-- A successful inspection either found the element hidden or absent
(visibility probe returned false, nothing printed) or found it visible and
printed its computed font size. -/
theorem inspect_ok {env : Env} (h : (inspectStep env).2 = Except.ok ()) :
    (env.isVisible = Except.ok false ∧
      (inspectStep env).1 =
        [Event.locate numberInputSelector, Event.visibilityCheck]) ∨
    (∃ fs, env.isVisible = Except.ok true ∧ env.evaluate = Except.ok fs ∧
      (inspectStep env).1 =
        [Event.locate numberInputSelector, Event.visibilityCheck,
         Event.evalFontSize, Event.output ("Input font size: " ++ fs)]) := by
  cases hv : env.isVisible with
  | error e => simp [inspectStep, hv] at h
  | ok b =>
    cases b with
    | false => exact Or.inl ⟨rfl, by simp [inspectStep, hv]⟩
    | true =>
      cases he : env.evaluate with
      | error e => simp [inspectStep, hv, he] at h
      | ok fs => exact Or.inr ⟨fs, rfl, rfl, by simp [inspectStep, hv, he]⟩

/-- A failed inspection still performed the locate (and possibly the
visibility probe) but printed nothing and wrote nothing. -/
theorem inspect_err {env : Env} {e : String}
    (h : (inspectStep env).2 = Except.error e) :
    (inspectStep env).1 = [Event.locate numberInputSelector] ∨
    (inspectStep env).1 =
      [Event.locate numberInputSelector, Event.visibilityCheck] := by
  cases hv : env.isVisible with
  | error e2 => left; simp [inspectStep, hv]
  | ok b =>
    cases b with
    | false => right; simp [inspectStep, hv]
    | true =>
      cases he : env.evaluate with
      | error e2 => right; simp [inspectStep, hv, he]
      | ok fs => simp [inspectStep, hv, he] at h

/-! ### Decomposition of the guarded body and the whole run -/

theorem seqRes_err_cases {a b : List Event × Except String Unit} {e : String}
    (h : (seqRes a b).2 = Except.error e) :
    (a.2 = Except.error e ∧ (seqRes a b).1 = a.1) ∨
    (a.2 = Except.ok () ∧ b.2 = Except.error e ∧
      (seqRes a b).1 = a.1 ++ b.1) := by
  obtain ⟨t, r⟩ := a
  obtain ⟨u, s⟩ := b
  cases r with
  | error e1 =>
      obtain rfl : e1 = e := Except.error.inj h
      exact Or.inl ⟨rfl, rfl⟩
  | ok v =>
      cases v
      obtain rfl : s = Except.error e := h
      exact Or.inr ⟨rfl, rfl, rfl⟩

theorem withTeardown_of_ok {a : List Event × Except String Unit}
    (h : a.2 = Except.ok ()) :
    withTeardown a = (a.1 ++ [Event.close], Outcome.normal) := by
  obtain ⟨t, r⟩ := a
  obtain rfl : r = Except.ok () := h
  rfl

theorem withTeardown_of_err {a : List Event × Except String Unit} {e : String}
    (h : a.2 = Except.error e) :
    withTeardown a =
      (a.1 ++ [Event.output ("Error: " ++ e), Event.close],
       Outcome.normal) := by
  obtain ⟨t, r⟩ := a
  obtain rfl : r = Except.error e := h
  rfl

theorem verify_mobile_eq (env : Env) :
    verify_mobile env =
      match (setup env).2 with
      | Except.error e => ((setup env).1, Outcome.uncaught e)
      | Except.ok _ =>
          ((setup env).1 ++ (withTeardown (tryBody env)).1,
           (withTeardown (tryBody env)).2) := by
  unfold verify_mobile
  rcases setup env with ⟨t, r⟩
  cases r <;> rfl

/-- If any of the four acquisition calls raises, `verify_mobile` ends with
that exception uncaught. -/
theorem verify_mobile_setup_err {env : Env} {e : String}
    (h : (setup env).2 = Except.error e) :
    verify_mobile env = ((setup env).1, Outcome.uncaught e) := by
  rw [verify_mobile_eq, h]

/-- Once setup succeeded, the run is the guarded body followed by the
handler/teardown tail. -/
theorem verify_mobile_run {env : Env} (h : (setup env).2 = Except.ok ()) :
    verify_mobile env =
      ((setup env).1 ++ (withTeardown (tryBody env)).1,
       (withTeardown (tryBody env)).2) := by
  rw [verify_mobile_eq, h]

/-- A successful guarded body means all four of its phases succeeded, and its
trace is their concatenation. -/
theorem tryBody_ok {env : Env} (h : (tryBody env).2 = Except.ok ()) :
    (step1 env).2 = Except.ok () ∧ (step2 env).2 = Except.ok () ∧
    (inspectStep env).2 = Except.ok () ∧ (step3 env).2 = Except.ok () ∧
    (tryBody env).1 =
      (step1 env).1 ++
        ((step2 env).1 ++ ((inspectStep env).1 ++ (step3 env).1)) := by
  unfold tryBody at h
  obtain ⟨h1, hr⟩ := seqRes_ok_iff.mp h
  obtain ⟨h2, hr2⟩ := seqRes_ok_iff.mp hr
  obtain ⟨h3, h4⟩ := seqRes_ok_iff.mp hr2
  refine ⟨h1, h2, h3, h4, ?_⟩
  unfold tryBody
  rw [seqRes_okl _ h1, seqRes_okl _ h2, seqRes_okl _ h3]

/-- A failing guarded body fails at exactly one of its four phases; the trace
contains precisely the phases that ran, in order. -/
theorem tryBody_err {env : Env} {e : String}
    (h : (tryBody env).2 = Except.error e) :
    ((step1 env).2 = Except.error e ∧ (tryBody env).1 = (step1 env).1) ∨
    ((step1 env).2 = Except.ok () ∧ (step2 env).2 = Except.error e ∧
      (tryBody env).1 = (step1 env).1 ++ (step2 env).1) ∨
    ((step1 env).2 = Except.ok () ∧ (step2 env).2 = Except.ok () ∧
      (inspectStep env).2 = Except.error e ∧
      (tryBody env).1 =
        (step1 env).1 ++ ((step2 env).1 ++ (inspectStep env).1)) ∨
    ((step1 env).2 = Except.ok () ∧ (step2 env).2 = Except.ok () ∧
      (inspectStep env).2 = Except.ok () ∧
      (step3 env).2 = Except.error e ∧
      (tryBody env).1 =
        (step1 env).1 ++
          ((step2 env).1 ++ ((inspectStep env).1 ++ (step3 env).1))) := by
  unfold tryBody at h
  rcases seqRes_err_cases h with ⟨h1, ht⟩ | ⟨h1, hr, ht⟩
  · left
    refine ⟨h1, ?_⟩
    show (seqRes (step1 env)
      (seqRes (step2 env) (seqRes (inspectStep env) (step3 env)))).1 =
      (step1 env).1
    exact ht
  · rcases seqRes_err_cases hr with ⟨h2, ht2⟩ | ⟨h2, hr2, ht3⟩
    · right; left
      refine ⟨h1, h2, ?_⟩
      show (seqRes (step1 env)
        (seqRes (step2 env) (seqRes (inspectStep env) (step3 env)))).1 =
        (step1 env).1 ++ (step2 env).1
      rw [ht, ht2]
    · rcases seqRes_err_cases hr2 with ⟨h3, ht4⟩ | ⟨h3, h4, ht5⟩
      · right; right; left
        refine ⟨h1, h2, h3, ?_⟩
        show (seqRes (step1 env)
          (seqRes (step2 env) (seqRes (inspectStep env) (step3 env)))).1 =
          (step1 env).1 ++ ((step2 env).1 ++ (inspectStep env).1)
        rw [ht, ht3, ht4]
      · right; right; right
        refine ⟨h1, h2, h3, h4, ?_⟩
        show (seqRes (step1 env)
          (seqRes (step2 env) (seqRes (inspectStep env) (step3 env)))).1 =
          (step1 env).1 ++
            ((step2 env).1 ++ ((inspectStep env).1 ++ (step3 env).1))
        rw [ht, ht3, ht5]

/-! ### What events each phase can contain -/

theorem mem_capture {env : Env} {u s m : String} {x : Event}
    (h : x ∈ (captureStep env u s m).1) :
    x = Event.goto u ∨ x = Event.sleep 2 ∨
    x = Event.screenshot s false ∨ x = Event.output m := by
  rcases capture_trace_cases env u s m with h0 | h0 | h0 <;>
    rw [h0] at h <;> simp at h <;> tauto

theorem mem_inspect {env : Env} {x : Event}
    (h : x ∈ (inspectStep env).1) :
    x = Event.locate numberInputSelector ∨ x = Event.visibilityCheck ∨
    x = Event.evalFontSize ∨
    ∃ fs, x = Event.output ("Input font size: " ++ fs) := by
  rcases inspect_trace_cases env with h0 | h0 | ⟨fs, h0⟩ <;>
    rw [h0] at h <;> simp at h <;> tauto

theorem mem_setup {env : Env} {x : Event}
    (h : x ∈ (setup env).1) :
    x = Event.getDevice deviceName ∨ x = Event.launchBrowser true ∨
    x = Event.newContext deviceName ∨ x = Event.newPage := by
  rcases setup_trace_cases env with h0 | h0 | h0 | h0 | h0 <;>
    rw [h0] at h <;> simp [setupTrace] at h <;> tauto

theorem mem_tryBody {env : Env} {x : Event} (h : x ∈ (tryBody env).1) :
    x ∈ (step1 env).1 ∨ x ∈ (step2 env).1 ∨
    x ∈ (inspectStep env).1 ∨ x ∈ (step3 env).1 := by
  unfold tryBody at h
  rcases mem_seqRes h with h0 | h0
  · exact Or.inl h0
  · rcases mem_seqRes h0 with h1 | h1
    · exact Or.inr (Or.inl h1)
    · rcases mem_seqRes h1 with h2 | h2
      · exact Or.inr (Or.inr (Or.inl h2))
      · exact Or.inr (Or.inr (Or.inr h2))

/-- The browser is never closed by setup or by any step of the guarded
body: the only `close` is the one in the `finally`. -/
theorem close_not_in_setup (env : Env) : Event.close ∉ (setup env).1 := by
  intro h
  rcases mem_setup h with h0 | h0 | h0 | h0 <;> cases h0

theorem close_not_in_tryBody (env : Env) : Event.close ∉ (tryBody env).1 := by
  intro h
  rcases mem_tryBody h with h0 | h0 | h0 | h0
  · rcases mem_capture h0 with h1 | h1 | h1 | h1 <;> cases h1
  · rcases mem_capture h0 with h1 | h1 | h1 | h1 <;> cases h1
  · rcases mem_inspect h0 with h1 | h1 | h1 | ⟨fs, h1⟩ <;> cases h1
  · rcases mem_capture h0 with h1 | h1 | h1 | h1 <;> cases h1

/-! ### Output, file and close-count bookkeeping -/

/-- Number of times the trace closes the browser. -/
def countClose : List Event → Nat
  | [] => 0
  | Event.close :: rest => countClose rest + 1
  | _ :: rest => countClose rest

theorem outputs_append (a b : List Event) :
    outputs (a ++ b) = outputs a ++ outputs b := by
  induction a with
  | nil => rfl
  | cons hd tl ih => cases hd <;> simp [outputs, ih]

theorem filesWritten_append (a b : List Event) :
    filesWritten (a ++ b) = filesWritten a ++ filesWritten b := by
  induction a with
  | nil => rfl
  | cons hd tl ih => cases hd <;> simp [filesWritten, ih]

theorem countClose_append (a b : List Event) :
    countClose (a ++ b) = countClose a + countClose b := by
  induction a with
  | nil => simp [countClose]
  | cons hd tl ih => cases hd <;> (simp [countClose, ih]; try omega)

theorem countClose_of_not_mem {tr : List Event} (h : Event.close ∉ tr) :
    countClose tr = 0 := by
  induction tr with
  | nil => rfl
  | cons hd tl ih =>
      have htl : Event.close ∉ tl := fun hm => h (List.mem_cons_of_mem _ hm)
      cases hd
      case close => exact absurd (List.mem_cons_self _ _) h
      all_goals exact ih htl

theorem mem_filesWritten {tr : List Event} {p : String}
    (h : p ∈ filesWritten tr) : ∃ fp, Event.screenshot p fp ∈ tr := by
  induction tr with
  | nil => cases h
  | cons hd tl ih =>
      cases hd
      case screenshot q fb =>
        rcases List.mem_cons.mp (h : p ∈ q :: filesWritten tl) with h0 | h0
        · exact ⟨fb, by rw [h0]; exact List.mem_cons_self _ _⟩
        · obtain ⟨fp, hfp⟩ := ih h0
          exact ⟨fp, List.mem_cons_of_mem _ hfp⟩
      all_goals exact (ih h).imp fun fp hfp => List.mem_cons_of_mem _ hfp

theorem fsAfter_append (rid : Nat) (a b : List Event)
    (fs : String → Option Nat) :
    fsAfter rid (a ++ b) fs = fsAfter rid b (fsAfter rid a fs) := by
  induction a generalizing fs with
  | nil => rfl
  | cons hd tl ih => cases hd <;> simp [fsAfter, ih]

/-- A path no screenshot event wrote keeps its previous contents. -/
theorem fsAfter_not_written {rid : Nat} {tr : List Event} {p : String}
    (fs : String → Option Nat) (h : p ∉ filesWritten tr) :
    fsAfter rid tr fs p = fs p := by
  induction tr generalizing fs with
  | nil => rfl
  | cons hd tl ih =>
      cases hd
      case screenshot q fb =>
        have hpq : p ≠ q :=
          fun he => h (show p ∈ q :: filesWritten tl by rw [he]; exact List.mem_cons_self _ _)
        have htl : p ∉ filesWritten tl :=
          fun hm => h (show p ∈ q :: filesWritten tl from List.mem_cons_of_mem _ hm)
        show fsAfter rid tl (fun r => if r = q then some rid else fs r) p = fs p
        rw [ih _ htl]
        simp [hpq]
      all_goals exact ih fs h

/-- A path some screenshot event wrote holds the writing run's tag at the
end of the trace, whatever the store held before. -/
theorem fsAfter_written {rid : Nat} {tr : List Event} {p : String}
    (fs : String → Option Nat) (h : p ∈ filesWritten tr) :
    fsAfter rid tr fs p = some rid := by
  induction tr generalizing fs with
  | nil => cases h
  | cons hd tl ih =>
      cases hd
      case screenshot q fb =>
        by_cases htl : p ∈ filesWritten tl
        · exact ih _ htl
        · have hpq : p = q := by
            rcases List.mem_cons.mp (h : p ∈ q :: filesWritten tl) with h0 | h0
            · exact h0
            · exact absurd h0 htl
          show fsAfter rid tl (fun r => if r = q then some rid else fs r) p =
            some rid
          rw [fsAfter_not_written _ htl]
          simp [hpq]
      all_goals exact ih fs h

/-! ### Structural forms of a whole run -/

/-- A run whose guarded body succeeds: acquisition effects, the body's
effects, one close. -/
theorem run_ok_struct (env : Env) (hs : (setup env).2 = Except.ok ())
    (hb : (tryBody env).2 = Except.ok ()) :
    verify_mobile env =
      (setupTrace ++ ((tryBody env).1 ++ [Event.close]), Outcome.normal) := by
  rw [verify_mobile_run hs, withTeardown_of_ok hb, setup_ok hs]

/-- A run whose guarded body raises: acquisition effects, the body's partial
effects, the handler's error line, one close, normal return. -/
theorem run_err_struct (env : Env) {e : String}
    (hs : (setup env).2 = Except.ok ())
    (hb : (tryBody env).2 = Except.error e) :
    verify_mobile env =
      (setupTrace ++
        ((tryBody env).1 ++ [Event.output ("Error: " ++ e), Event.close]),
       Outcome.normal) := by
  rw [verify_mobile_run hs, withTeardown_of_err hb, setup_ok hs]

theorem outputs_setupTrace : outputs setupTrace = [] := rfl

theorem filesWritten_setupTrace : filesWritten setupTrace = [] := rfl

theorem filesWritten_inspect (env : Env) :
    filesWritten (inspectStep env).1 = [] := by
  rcases inspect_trace_cases env with h | h | ⟨fs, h⟩ <;> rw [h] <;> rfl

theorem outputs_capture_ok {env : Env} {u s m : String}
    (h : (captureStep env u s m).2 = Except.ok ()) :
    outputs (captureStep env u s m).1 = [m] := by
  rw [capture_ok h]
  rfl

theorem outputs_capture_err {env : Env} {u s m e : String}
    (h : (captureStep env u s m).2 = Except.error e) :
    outputs (captureStep env u s m).1 = [] := by
  rcases capture_err h with h0 | h0 <;> rw [h0] <;> rfl

theorem filesWritten_capture_ok {env : Env} {u s m : String}
    (h : (captureStep env u s m).2 = Except.ok ()) :
    filesWritten (captureStep env u s m).1 = [s] := by
  rw [capture_ok h]
  rfl

theorem filesWritten_capture_err {env : Env} {u s m e : String}
    (h : (captureStep env u s m).2 = Except.error e) :
    filesWritten (captureStep env u s m).1 = [] := by
  rcases capture_err h with h0 | h0 <;> rw [h0] <;> rfl

/-- The screenshot files of a fully successful run, in order. -/
theorem filesWritten_run_ok {env : Env}
    (hs : (setup env).2 = Except.ok ())
    (hb : (tryBody env).2 = Except.ok ()) :
    filesWritten (verify_mobile env).1 =
      [homeShot, settingsShot, resultsShot] := by
  obtain ⟨h1, h2, h3, h4, htr⟩ := tryBody_ok hb
  rw [run_ok_struct env hs hb]
  rw [filesWritten_append, filesWritten_setupTrace, filesWritten_append, htr]
  rw [filesWritten_append, filesWritten_append, filesWritten_append]
  simp only [step1, step2, step3]
  rw [filesWritten_capture_ok
        (h1 : (captureStep env homeUrl homeShot homeMsg).2 = Except.ok ()),
      filesWritten_capture_ok
        (h2 : (captureStep env settingsUrl settingsShot settingsMsg).2 =
          Except.ok ()),
      filesWritten_capture_ok
        (h4 : (captureStep env resultsUrl resultsShot resultsMsg).2 =
          Except.ok ()),
      filesWritten_inspect]
  rfl

/-- The screenshot files of a run whose guarded body raised: always an
initial segment of the three, never including the results screenshot. -/
theorem filesWritten_run_err {env : Env} {e : String}
    (hs : (setup env).2 = Except.ok ())
    (hb : (tryBody env).2 = Except.error e) :
    filesWritten (verify_mobile env).1 = [] ∨
    filesWritten (verify_mobile env).1 = [homeShot] ∨
    filesWritten (verify_mobile env).1 = [homeShot, settingsShot] := by
  rw [run_err_struct env hs hb, filesWritten_append, filesWritten_setupTrace,
    filesWritten_append]
  have htail : filesWritten [Event.output ("Error: " ++ e), Event.close] =
      ([] : List String) := rfl
  rw [htail, List.append_nil, List.nil_append]
  rcases tryBody_err hb with ⟨h1, ht⟩ | ⟨h1, h2, ht⟩ |
    ⟨h1, h2, h3, ht⟩ | ⟨h1, h2, h3, h4, ht⟩
  · left
    rw [ht]
    exact filesWritten_capture_err
      (h1 : (captureStep env homeUrl homeShot homeMsg).2 = Except.error e)
  · right; left
    rw [ht, filesWritten_append]
    simp only [step1, step2, step3]
    rw [filesWritten_capture_ok
        (h1 : (captureStep env homeUrl homeShot homeMsg).2 = Except.ok ()),
      filesWritten_capture_err
        (h2 : (captureStep env settingsUrl settingsShot settingsMsg).2 =
          Except.error e)]
    rfl
  · right; right
    rw [ht, filesWritten_append, filesWritten_append]
    simp only [step1, step2, step3]
    rw [filesWritten_capture_ok
        (h1 : (captureStep env homeUrl homeShot homeMsg).2 = Except.ok ()),
      filesWritten_capture_ok
        (h2 : (captureStep env settingsUrl settingsShot settingsMsg).2 =
          Except.ok ()),
      filesWritten_inspect]
    rfl
  · right; right
    rw [ht, filesWritten_append, filesWritten_append, filesWritten_append]
    simp only [step1, step2, step3]
    rw [filesWritten_capture_ok
        (h1 : (captureStep env homeUrl homeShot homeMsg).2 = Except.ok ()),
      filesWritten_capture_ok
        (h2 : (captureStep env settingsUrl settingsShot settingsMsg).2 =
          Except.ok ()),
      filesWritten_inspect,
      filesWritten_capture_err
        (h4 : (captureStep env resultsUrl resultsShot resultsMsg).2 =
          Except.error e)]
    rfl

/-- Events added by the teardown tail. -/
theorem mem_withTeardown {x : Event} {a : List Event × Except String Unit}
    (h : x ∈ (withTeardown a).1) :
    x ∈ a.1 ∨ x = Event.close ∨ ∃ m, x = Event.output m := by
  obtain ⟨t, r⟩ := a
  cases r with
  | error e =>
      rcases List.mem_append.mp h with h0 | h0
      · exact Or.inl h0
      · rcases List.mem_cons.mp h0 with h1 | h1
        · exact Or.inr (Or.inr ⟨"Error: " ++ e, h1⟩)
        · exact Or.inr (Or.inl (by simpa using h1))
  | ok v =>
      cases v
      rcases List.mem_append.mp h with h0 | h0
      · exact Or.inl h0
      · exact Or.inr (Or.inl (by simpa using h0))

/-- No run, whatever happens, ever performs a full-page screenshot: the
source never passes `full_page=True`. -/
theorem no_full_page_event (env : Env) (p : String) :
    Event.screenshot p true ∉ (verify_mobile env).1 := by
  intro hmem
  cases hse : (setup env).2 with
  | error e =>
      rw [verify_mobile_setup_err hse] at hmem
      rcases mem_setup hmem with h | h | h | h <;> cases h
  | ok v =>
      cases v
      rw [verify_mobile_run hse] at hmem
      rcases List.mem_append.mp hmem with h | h
      · rcases mem_setup h with h0 | h0 | h0 | h0 <;> cases h0
      · rcases mem_withTeardown h with h0 | h0 | ⟨m, h0⟩
        · rcases mem_tryBody h0 with h1 | h1 | h1 | h1
          · rcases mem_capture h1 with h2 | h2 | h2 | h2 <;> cases h2
          · rcases mem_capture h1 with h2 | h2 | h2 | h2 <;> cases h2
          · rcases mem_inspect h1 with h2 | h2 | h2 | ⟨fs, h2⟩ <;> cases h2
          · rcases mem_capture h1 with h2 | h2 | h2 | h2 <;> cases h2
        · cases h0
        · cases h0

/-! ### The claims -/

/-- C1: every exception raised during the guarded verification steps (the
three navigate/wait/capture steps and the font-size inspection) is caught at
the top level of the run: the run returns normally (nothing re-raised), a
message containing the error text is printed, and after the failing step the
only remaining effects are that error line and the teardown close — no
remaining verification step executes. -/
theorem claim_c1_exception_caught (env : Env) (e : String)
    (hs : (setup env).2 = Except.ok ())
    (hb : (tryBody env).2 = Except.error e) :
    (verify_mobile env).2 = Outcome.normal ∧
    ("Error: " ++ e) ∈ outputs (verify_mobile env).1 ∧
    (∃ pre, "Error: " ++ e = pre ++ e) ∧
    (verify_mobile env).1 =
      setupTrace ++
        ((tryBody env).1 ++
          [Event.output ("Error: " ++ e), Event.close]) := by
  have hr := run_err_struct env hs hb
  refine ⟨by simp [hr], ?_, ⟨"Error: ", rfl⟩, by simp [hr]⟩
  rw [hr]
  show ("Error: " ++ e) ∈ outputs (setupTrace ++
    ((tryBody env).1 ++ [Event.output ("Error: " ++ e), Event.close]))
  rw [outputs_append, outputs_setupTrace, outputs_append]
  simp [outputs]

/-- C2: on every run that reached the guarded region (session acquired),
the browser session is closed exactly once, on the success path and on the
error path alike. -/
theorem claim_c2_session_closed_once (env : Env)
    (hs : (setup env).2 = Except.ok ()) :
    countClose (verify_mobile env).1 = 1 := by
  have hset : countClose setupTrace = 0 := rfl
  cases hb : (tryBody env).2 with
  | error e =>
      rw [run_err_struct env hs hb]
      show countClose (setupTrace ++
        ((tryBody env).1 ++
          [Event.output ("Error: " ++ e), Event.close])) = 1
      rw [countClose_append, countClose_append, hset,
        countClose_of_not_mem (close_not_in_tryBody env)]
      rfl
  | ok v =>
      cases v
      rw [run_ok_struct env hs hb]
      show countClose (setupTrace ++ ((tryBody env).1 ++ [Event.close])) = 1
      rw [countClose_append, countClose_append, hset,
        countClose_of_not_mem (close_not_in_tryBody env)]
      rfl

/-- C3: a run without exceptions performs exactly: acquire the headless
session with the fixed iPhone 12 profile, then for `/`, `/settings`,
`/results` in that order navigate, sleep 2 seconds, write the fixed
path-specific screenshot, print the confirmation; the single inspection step
sits between the settings capture and the results navigation; then close. -/
theorem claim_c3_success_sequence (env : Env)
    (hs : (setup env).2 = Except.ok ())
    (hb : (tryBody env).2 = Except.ok ()) :
    (verify_mobile env).2 = Outcome.normal ∧
    (verify_mobile env).1 =
      [Event.getDevice deviceName, Event.launchBrowser true,
       Event.newContext deviceName, Event.newPage,
       Event.goto homeUrl, Event.sleep 2,
       Event.screenshot homeShot false, Event.output homeMsg,
       Event.goto settingsUrl, Event.sleep 2,
       Event.screenshot settingsShot false, Event.output settingsMsg] ++
      (inspectStep env).1 ++
      [Event.goto resultsUrl, Event.sleep 2,
       Event.screenshot resultsShot false, Event.output resultsMsg,
       Event.close] := by
  obtain ⟨h1, h2, h3, h4, htr⟩ := tryBody_ok hb
  have hr := run_ok_struct env hs hb
  refine ⟨by simp [hr], ?_⟩
  rw [hr]
  show setupTrace ++ ((tryBody env).1 ++ [Event.close]) = _
  rw [htr]
  simp only [step1, step2, step3]
  rw [capture_ok
      (h1 : (captureStep env homeUrl homeShot homeMsg).2 = Except.ok ()),
    capture_ok
      (h2 : (captureStep env settingsUrl settingsShot settingsMsg).2 =
        Except.ok ()),
    capture_ok
      (h4 : (captureStep env resultsUrl resultsShot resultsMsg).2 =
        Except.ok ())]
  simp [setupTrace, List.append_assoc]

/-- C6: once the guarded region is reached, the process exits with status 0
whether or not the internal handler fired: a verification-step failure never
reaches the exit status. -/
theorem claim_c6_exit_zero (env : Env)
    (hs : (setup env).2 = Except.ok ()) :
    mainExit env = 0 := by
  cases hb : (tryBody env).2 with
  | error e => simp [mainExit, run_err_struct env hs hb]
  | ok v => cases v; simp [mainExit, run_ok_struct env hs hb]

/-- C9: an exception in session acquisition (device lookup, launch, context
or page creation) happens before the `try` block, so it propagates uncaught:
the run ends with that exception, nothing is printed, and the
`browser.close()` call is never executed on that path. -/
theorem claim_c9_setup_uncaught (env : Env) (e : String)
    (hs : (setup env).2 = Except.error e) :
    (verify_mobile env).2 = Outcome.uncaught e ∧
    Event.close ∉ (verify_mobile env).1 ∧
    outputs (verify_mobile env).1 = [] ∧
    mainExit env = 1 := by
  have hr := verify_mobile_setup_err hs
  refine ⟨by simp [hr], ?_, ?_, by simp [mainExit, hr]⟩
  · rw [hr]
    show Event.close ∉ (setup env).1
    exact close_not_in_setup env
  · rw [hr]
    show outputs (setup env).1 = []
    rcases setup_trace_cases env with h | h | h | h | h <;> rw [h] <;> rfl

/-- C4: on a run with no exception, after the settings step the runner
locates the first numeric-input element and prints its computed font size if
and only if the visibility probe answered true; when it answered false
(element absent — `is_visible` returns false for no match — or hidden), the
step is silently skipped: the run still completes normally and the output is
exactly the three confirmations, with no font-size line. -/
theorem claim_c4_font_size_iff (env : Env)
    (hs : (setup env).2 = Except.ok ())
    (hb : (tryBody env).2 = Except.ok ()) :
    (verify_mobile env).2 = Outcome.normal ∧
    Event.locate numberInputSelector ∈ (verify_mobile env).1 ∧
    (env.isVisible = Except.ok true ∨ env.isVisible = Except.ok false) ∧
    (env.isVisible = Except.ok true →
      ∃ fs, env.evaluate = Except.ok fs ∧
        outputs (verify_mobile env).1 =
          [homeMsg, settingsMsg, "Input font size: " ++ fs, resultsMsg]) ∧
    (env.isVisible = Except.ok false →
      outputs (verify_mobile env).1 = [homeMsg, settingsMsg, resultsMsg]) := by
  obtain ⟨h1, h2, h3, h4, htr⟩ := tryBody_ok hb
  have hr := run_ok_struct env hs hb
  have hout : outputs (verify_mobile env).1 =
      homeMsg :: settingsMsg ::
        (outputs (inspectStep env).1 ++ [resultsMsg]) := by
    rw [hr]
    show outputs (setupTrace ++ ((tryBody env).1 ++ [Event.close])) =
      homeMsg :: settingsMsg ::
        (outputs (inspectStep env).1 ++ [resultsMsg])
    rw [outputs_append, outputs_setupTrace, outputs_append, htr,
      outputs_append, outputs_append, outputs_append]
    simp only [step1, step2, step3]
    rw [outputs_capture_ok
        (h1 : (captureStep env homeUrl homeShot homeMsg).2 = Except.ok ()),
      outputs_capture_ok
        (h2 : (captureStep env settingsUrl settingsShot settingsMsg).2 =
          Except.ok ()),
      outputs_capture_ok
        (h4 : (captureStep env resultsUrl resultsShot resultsMsg).2 =
          Except.ok ())]
    simp [outputs]
  have hloc : Event.locate numberInputSelector ∈ (verify_mobile env).1 := by
    rw [hr]
    show Event.locate numberInputSelector ∈
      setupTrace ++ ((tryBody env).1 ++ [Event.close])
    rw [htr]
    rcases inspect_trace_cases env with hins | hins | ⟨fs, hins⟩ <;>
      rw [hins] <;> simp
  rcases inspect_ok h3 with ⟨hvis, hins⟩ | ⟨fs, hvis, hev, hins⟩
  · refine ⟨by simp [hr], hloc, Or.inr hvis, ?_, ?_⟩
    · intro hx
      simp [hvis] at hx
    · intro _
      rw [hout, hins]
      rfl
  · refine ⟨by simp [hr], hloc, Or.inl hvis, ?_, ?_⟩
    · intro _
      refine ⟨fs, hev, ?_⟩
      rw [hout, hins]
      rfl
    · intro hx
      simp [hvis] at hx

/-- C5 counterexample: on a fully successful run the three capture events all
carry `full_page = false` (Playwright's default, since the source passes only
`path=...`), and no full-page capture event occurs — the captures are
viewport renders, not images of the full scrollable content. -/
theorem claim_c5_counterexample :
    (verify_mobile envOk).2 = Outcome.normal ∧
    Event.screenshot homeShot false ∈ (verify_mobile envOk).1 ∧
    Event.screenshot settingsShot false ∈ (verify_mobile envOk).1 ∧
    Event.screenshot resultsShot false ∈ (verify_mobile envOk).1 ∧
    Event.screenshot homeShot true ∉ (verify_mobile envOk).1 ∧
    Event.screenshot settingsShot true ∉ (verify_mobile envOk).1 ∧
    Event.screenshot resultsShot true ∉ (verify_mobile envOk).1 := by
  refine ⟨rfl, ?_, ?_, ?_, ?_, ?_, ?_⟩ <;> decide

/-- C5 (amended): for each of the three target paths the capture step
persists a viewport image capture (not a full-page one — the source never
passes `full_page=True`) to its fixed path-specific filename, overwriting any
prior file of the same name. -/
theorem claim_c5_viewport_capture (env : Env)
    (hs : (setup env).2 = Except.ok ())
    (hb : (tryBody env).2 = Except.ok ()) :
    filesWritten (verify_mobile env).1 =
      [homeShot, settingsShot, resultsShot] ∧
    Event.screenshot homeShot false ∈ (verify_mobile env).1 ∧
    Event.screenshot settingsShot false ∈ (verify_mobile env).1 ∧
    Event.screenshot resultsShot false ∈ (verify_mobile env).1 ∧
    (∀ p : String, Event.screenshot p true ∉ (verify_mobile env).1) ∧
    (∀ rid : Nat, ∀ fs0 : String → Option Nat,
      runOnFs env rid fs0 homeShot = some rid ∧
      runOnFs env rid fs0 settingsShot = some rid ∧
      runOnFs env rid fs0 resultsShot = some rid) := by
  have hfiles := filesWritten_run_ok hs hb
  have hmem : ∀ p, p ∈ filesWritten (verify_mobile env).1 →
      Event.screenshot p false ∈ (verify_mobile env).1 := by
    intro p hp
    obtain ⟨fp, hfp⟩ := mem_filesWritten hp
    cases fp
    · exact hfp
    · exact absurd hfp (no_full_page_event env p)
  refine ⟨hfiles, hmem homeShot (by rw [hfiles]; simp),
    hmem settingsShot (by rw [hfiles]; simp),
    hmem resultsShot (by rw [hfiles]; simp),
    no_full_page_event env, ?_⟩
  intro rid fs0
  exact ⟨fsAfter_written fs0 (by rw [hfiles]; simp),
    fsAfter_written fs0 (by rw [hfiles]; simp),
    fsAfter_written fs0 (by rw [hfiles]; simp)⟩

/-- C7 counterexample: when the settings screenshot call raises (a failure at
capture step 2 of 3), the run's standard output already contains the home
step's confirmation line — an output signal identifying step 1 as having
succeeded — alongside the error line; so the output is not free of
success-indicating signals, contrary to the claim's final conjunct. -/
theorem claim_c7_counterexample :
    outputs (verify_mobile envShotFail).1 =
      [homeMsg, "Error: " ++ "disk full"] ∧
    filesWritten (verify_mobile envShotFail).1 = [homeShot] ∧
    (verify_mobile envShotFail).2 = Outcome.normal := by
  exact ⟨rfl, rfl, rfl⟩

/-- C7 (amended): if the guarded body fails, the screenshots already written
are an initial segment of the three fixed names and remain in the final file
store unchanged (no cleanup or rollback), the results screenshot is never
written, the process still exits 0, and the output is exactly the
confirmations of the completed steps followed by the single error line — no
dedicated partial-success report beyond those already-printed per-step
confirmation lines. -/
theorem claim_c7_partial_files (env : Env) (e : String)
    (hs : (setup env).2 = Except.ok ())
    (hb : (tryBody env).2 = Except.error e) :
    (∃ rest, filesWritten (verify_mobile env).1 ++ rest =
      [homeShot, settingsShot, resultsShot]) ∧
    resultsShot ∉ filesWritten (verify_mobile env).1 ∧
    (∀ rid : Nat, ∀ fs0 : String → Option Nat, ∀ p : String,
      p ∈ filesWritten (verify_mobile env).1 →
      runOnFs env rid fs0 p = some rid) ∧
    mainExit env = 0 ∧
    outputs (verify_mobile env).1 =
      outputs (tryBody env).1 ++ ["Error: " ++ e] := by
  refine ⟨?_, ?_, ?_, ?_, ?_⟩
  · rcases filesWritten_run_err hs hb with h | h | h
    · exact ⟨[homeShot, settingsShot, resultsShot], by rw [h]; rfl⟩
    · exact ⟨[settingsShot, resultsShot], by rw [h]; rfl⟩
    · exact ⟨[resultsShot], by rw [h]; rfl⟩
  · rcases filesWritten_run_err hs hb with h | h | h <;> rw [h] <;> decide
  · intro rid fs0 p hp
    exact fsAfter_written fs0 hp
  · simp [mainExit, run_err_struct env hs hb]
  · rw [run_err_struct env hs hb]
    show outputs (setupTrace ++
      ((tryBody env).1 ++ [Event.output ("Error: " ++ e), Event.close])) =
      outputs (tryBody env).1 ++ ["Error: " ++ e]
    rw [outputs_append, outputs_setupTrace, outputs_append]
    simp [outputs]

/-- C8: the three output filenames are fixed constants, so a successful run
writes exactly those three names; replaying a second run over the file store
left by a first run overwrites the same three files (their content tag
becomes the second run's) and touches no other path — idempotent output
naming, no accumulation. -/
theorem claim_c8_idempotent_naming (env : Env)
    (hs : (setup env).2 = Except.ok ())
    (hb : (tryBody env).2 = Except.ok ()) :
    filesWritten (verify_mobile env).1 =
      [homeShot, settingsShot, resultsShot] ∧
    (∀ fs0 : String → Option Nat, ∀ p : String,
      p ∈ ([homeShot, settingsShot, resultsShot] : List String) →
      runOnFs env 2 (runOnFs env 1 fs0) p = some 2) ∧
    (∀ fs0 : String → Option Nat, ∀ p : String,
      p ∉ ([homeShot, settingsShot, resultsShot] : List String) →
      runOnFs env 2 (runOnFs env 1 fs0) p = fs0 p) := by
  have hfiles := filesWritten_run_ok hs hb
  refine ⟨hfiles, ?_, ?_⟩
  · intro fs0 p hp
    exact fsAfter_written _ (by rw [hfiles]; exact hp)
  · intro fs0 p hp
    have hp2 : p ∉ filesWritten (verify_mobile env).1 := by
      rw [hfiles]; exact hp
    show fsAfter 2 (verify_mobile env).1 (runOnFs env 1 fs0) p = fs0 p
    rw [fsAfter_not_written _ hp2]
    exact fsAfter_not_written _ hp2

/-- C10: the font-size inspection is not failure-isolated: when the
visibility probe or the style evaluation raises (beyond the tolerated
absent/hidden cases, which return false), the blanket handler fires, the
results navigation and results screenshot are skipped, and — the inspection
running after the settings capture — the settings screenshot is already on
disk and stays there. -/
theorem claim_c10_inspection_not_isolated (env : Env) (e : String)
    (hs : (setup env).2 = Except.ok ())
    (h1 : (step1 env).2 = Except.ok ())
    (h2 : (step2 env).2 = Except.ok ())
    (hi : (inspectStep env).2 = Except.error e) :
    (verify_mobile env).2 = Outcome.normal ∧
    Event.output ("Error: " ++ e) ∈ (verify_mobile env).1 ∧
    Event.goto resultsUrl ∉ (verify_mobile env).1 ∧
    resultsShot ∉ filesWritten (verify_mobile env).1 ∧
    settingsShot ∈ filesWritten (verify_mobile env).1 ∧
    (∀ rid : Nat, ∀ fs0 : String → Option Nat,
      runOnFs env rid fs0 settingsShot = some rid) := by
  have hb : (tryBody env).2 = Except.error e := by
    unfold tryBody
    rw [seqRes_err (step3 env) hi, seqRes_okl _ h2, seqRes_okl _ h1]
  have htr : (tryBody env).1 =
      (step1 env).1 ++ ((step2 env).1 ++ (inspectStep env).1) := by
    unfold tryBody
    rw [seqRes_err (step3 env) hi, seqRes_okl _ h2, seqRes_okl _ h1]
  have hr := run_err_struct env hs hb
  have hff : filesWritten (verify_mobile env).1 = [homeShot, settingsShot] := by
    rw [hr]
    show filesWritten (setupTrace ++
      ((tryBody env).1 ++ [Event.output ("Error: " ++ e), Event.close])) =
      [homeShot, settingsShot]
    rw [filesWritten_append, filesWritten_setupTrace, filesWritten_append,
      htr, filesWritten_append, filesWritten_append]
    simp only [step1, step2]
    rw [filesWritten_capture_ok
        (h1 : (captureStep env homeUrl homeShot homeMsg).2 = Except.ok ()),
      filesWritten_capture_ok
        (h2 : (captureStep env settingsUrl settingsShot settingsMsg).2 =
          Except.ok ()),
      filesWritten_inspect]
    rfl
  refine ⟨by simp [hr], ?_, ?_, ?_, ?_, ?_⟩
  · rw [hr]
    show Event.output ("Error: " ++ e) ∈ setupTrace ++
      ((tryBody env).1 ++ [Event.output ("Error: " ++ e), Event.close])
    simp
  · intro hmem
    rw [hr] at hmem
    have hmem2 : Event.goto resultsUrl ∈ setupTrace ++
        ((tryBody env).1 ++
          [Event.output ("Error: " ++ e), Event.close]) := hmem
    rcases List.mem_append.mp hmem2 with h | h
    · simp [setupTrace] at h
    · rcases List.mem_append.mp h with h | h
      · rw [htr] at h
        rcases List.mem_append.mp h with h | h
        · rcases mem_capture (h : Event.goto resultsUrl ∈
              (captureStep env homeUrl homeShot homeMsg).1) with
            h0 | h0 | h0 | h0
          · exact absurd (Event.goto.inj h0) (by decide)
          · cases h0
          · cases h0
          · cases h0
        · rcases List.mem_append.mp h with h | h
          · rcases mem_capture (h : Event.goto resultsUrl ∈
                (captureStep env settingsUrl settingsShot settingsMsg).1) with
              h0 | h0 | h0 | h0
            · exact absurd (Event.goto.inj h0) (by decide)
            · cases h0
            · cases h0
            · cases h0
          · rcases mem_inspect h with h0 | h0 | h0 | ⟨fs, h0⟩ <;> cases h0
      · simp at h
  · rw [hff]
    decide
  · rw [hff]
    simp
  · intro rid fs0
    exact fsAfter_written fs0 (by rw [hff]; simp)

/-! ### Witnesses: each hypothesis-bearing claim theorem applied at a
concrete environment -/

/-- C1 witness: concrete run where navigation to the settings route raises. -/
theorem claim_c1_exception_caught_witness :
    (verify_mobile envGotoFail).2 = Outcome.normal ∧
    ("Error: " ++ "net::ERR_CONNECTION_REFUSED") ∈
      outputs (verify_mobile envGotoFail).1 ∧
    (∃ pre, "Error: " ++ "net::ERR_CONNECTION_REFUSED" =
      pre ++ "net::ERR_CONNECTION_REFUSED") ∧
    (verify_mobile envGotoFail).1 =
      setupTrace ++
        ((tryBody envGotoFail).1 ++
          [Event.output ("Error: " ++ "net::ERR_CONNECTION_REFUSED"),
           Event.close]) :=
  claim_c1_exception_caught envGotoFail "net::ERR_CONNECTION_REFUSED" rfl rfl

/-- C2 witness: concrete fully successful run closes exactly once. -/
theorem claim_c2_session_closed_once_witness :
    countClose (verify_mobile envOk).1 = 1 :=
  claim_c2_session_closed_once envOk rfl

/-- C3 witness at the all-successful environment. -/
theorem claim_c3_success_sequence_witness :
    (verify_mobile envOk).2 = Outcome.normal ∧
    (verify_mobile envOk).1 =
      [Event.getDevice deviceName, Event.launchBrowser true,
       Event.newContext deviceName, Event.newPage,
       Event.goto homeUrl, Event.sleep 2,
       Event.screenshot homeShot false, Event.output homeMsg,
       Event.goto settingsUrl, Event.sleep 2,
       Event.screenshot settingsShot false, Event.output settingsMsg] ++
      (inspectStep envOk).1 ++
      [Event.goto resultsUrl, Event.sleep 2,
       Event.screenshot resultsShot false, Event.output resultsMsg,
       Event.close] :=
  claim_c3_success_sequence envOk rfl rfl

/-- C4 witness: with the element visible the font-size line is printed. -/
theorem claim_c4_font_size_iff_witness :
    outputs (verify_mobile envVis).1 =
      [homeMsg, settingsMsg, "Input font size: " ++ "16px", resultsMsg] := by
  obtain ⟨fs, hev, hout⟩ :=
    (claim_c4_font_size_iff envVis rfl rfl).2.2.2.1 rfl
  obtain rfl : fs = "16px" :=
    (Except.ok.inj
      (hev : (Except.ok "16px" : Except String String) = Except.ok fs)).symm
  exact hout

/-- C5 witness for the amended viewport-capture statement. -/
theorem claim_c5_viewport_capture_witness :
    filesWritten (verify_mobile envOk).1 =
      [homeShot, settingsShot, resultsShot] ∧
    runOnFs envOk 1 (fun _ => none) homeShot = some 1 :=
  ⟨(claim_c5_viewport_capture envOk rfl rfl).1,
   ((claim_c5_viewport_capture envOk rfl rfl).2.2.2.2.2 1 fun _ => none).1⟩

/-- C6 witness: the exit status is 0 even on a run whose settings navigation
raised and whose handler fired. -/
theorem claim_c6_exit_zero_witness : mainExit envGotoFail = 0 :=
  claim_c6_exit_zero envGotoFail rfl

/-- C7 witness for the amended statement, at the run whose settings
screenshot raises. -/
theorem claim_c7_partial_files_witness :
    resultsShot ∉ filesWritten (verify_mobile envShotFail).1 ∧
    mainExit envShotFail = 0 ∧
    outputs (verify_mobile envShotFail).1 =
      outputs (tryBody envShotFail).1 ++ ["Error: " ++ "disk full"] := by
  have h := claim_c7_partial_files envShotFail "disk full" rfl rfl
  exact ⟨h.2.1, h.2.2.2.1, h.2.2.2.2⟩

/-- C8 witness: two successive runs over an empty store leave exactly the
three fixed files, tagged by the second run, and no other path. -/
theorem claim_c8_idempotent_naming_witness :
    filesWritten (verify_mobile envOk).1 =
      [homeShot, settingsShot, resultsShot] ∧
    runOnFs envOk 2 (runOnFs envOk 1 fun _ => none) homeShot = some 2 ∧
    runOnFs envOk 2 (runOnFs envOk 1 fun _ => none) "other.png" = none := by
  have h := claim_c8_idempotent_naming envOk rfl rfl
  exact ⟨h.1, h.2.1 _ homeShot (by simp), h.2.2 _ "other.png" (by decide)⟩

/-- C9 witness: concrete run whose browser launch raises. -/
theorem claim_c9_setup_uncaught_witness :
    (verify_mobile envLaunchFail).2 =
      Outcome.uncaught "browser executable not found" ∧
    Event.close ∉ (verify_mobile envLaunchFail).1 ∧
    outputs (verify_mobile envLaunchFail).1 = [] ∧
    mainExit envLaunchFail = 1 :=
  claim_c9_setup_uncaught envLaunchFail "browser executable not found" rfl

/-- C10 witness: concrete run whose visibility probe raises. -/
theorem claim_c10_inspection_not_isolated_witness :
    Event.goto resultsUrl ∉ (verify_mobile envVisFail).1 ∧
    settingsShot ∈ filesWritten (verify_mobile envVisFail).1 ∧
    (verify_mobile envVisFail).2 = Outcome.normal := by
  have h := claim_c10_inspection_not_isolated envVisFail "page closed"
    rfl rfl rfl rfl
  exact ⟨h.2.2.1, h.2.2.2.2.1, h.1⟩

end VerifyMobile
